import Mathlib

/-!
Verification of the coverage runner in `src/out/src/index.js` (vscodetestcover).

The file shallowly embeds the runner: the per-run coverage-variable key built
in the `CoverageRunner` constructor, the require-hook transformer with its
source-map fallback, the gap-filling aggregation and snapshot emission of
`reportCoverage`, the config reading of `readCoverOptions`, and the control
flow of `run`.  External collaborators (istanbul's instrumenter, the `glob`
module, the filesystem) are passed in as explicit function parameters; their
results are the inputs the embedded code consumes, exactly as the JS code
consumes the corresponding library calls.
-/

/-- Absolute or joined file paths are plain strings, as in the JS source. -/
abbrev FsPath := String

/-- Model of `path.join(a, b)` for the forward-slash cases exercised here. -/
def pathJoin (a b : String) : String := a ++ "/" ++ b

/-!
Decimal rendering of a natural number, modelling the ECMAScript ToString
conversion applied by the source in `'$$cov_' + new Date().getTime() + '$$'`
and by `JSON.stringify` on counter values: base-10 digits, no leading zeros,
`0` rendered as the single digit `0`.
-/

/-- Decimal digit characters of `n`, most significant first; empty for `0`. -/
def decimalChars : Nat → List Char
  | 0 => []
  | n + 1 => decimalChars ((n + 1) / 10) ++ [Nat.digitChar ((n + 1) % 10)]
decreasing_by exact Nat.div_lt_self (Nat.succ_pos n) (by decide)

/-- ECMAScript ToString of a nonnegative integer Number. -/
def jsNatToString (n : Nat) : String :=
  if n = 0 then String.mk ['0'] else String.mk (decimalChars n)

/-- Numeric value of a decimal digit character. -/
def charVal (c : Char) : Nat := c.toNat - 48

/-- Decode a most-significant-first digit-character list back to a number. -/
def valOfChars (l : List Char) : Nat := l.foldl (fun acc c => 10 * acc + charVal c) 0

theorem charVal_digitChar : ∀ d, d < 10 → charVal (Nat.digitChar d) = d := by decide

theorem decimalChars_succ (m : Nat) :
    decimalChars (m + 1) = decimalChars ((m + 1) / 10) ++ [Nat.digitChar ((m + 1) % 10)] := by
  rw [decimalChars]

theorem decimalChars_zero : decimalChars 0 = [] := by
  rw [decimalChars]

theorem valOfChars_decimalChars (n : Nat) : valOfChars (decimalChars n) = n := by
  induction n using Nat.strong_induction_on with
  | _ n ih =>
    match n with
    | 0 => rw [decimalChars_zero]; rfl
    | m + 1 =>
      have hdiv : (m + 1) / 10 < m + 1 := Nat.div_lt_self (Nat.succ_pos m) (by decide)
      have hmod : (m + 1) % 10 < 10 := Nat.mod_lt _ (by decide)
      rw [decimalChars_succ]
      simp only [valOfChars, List.foldl_append, List.foldl_cons, List.foldl_nil]
      have hrec : List.foldl (fun acc c => 10 * acc + charVal c) 0 (decimalChars ((m + 1) / 10))
          = (m + 1) / 10 := ih _ hdiv
      rw [hrec, charVal_digitChar _ hmod]
      omega

theorem decimalChars_inj (a b : Nat) (h : decimalChars a = decimalChars b) : a = b := by
  have ha := valOfChars_decimalChars a
  rw [h, valOfChars_decimalChars] at ha
  omega

theorem jsNatToString_inj (a b : Nat) (h : jsNatToString a = jsNatToString b) : a = b := by
  have hd : (jsNatToString a).data = (jsNatToString b).data := congrArg String.data h
  by_cases ha : a = 0 <;> by_cases hb : b = 0
  · omega
  · exfalso
    simp only [jsNatToString, ha, hb, ite_true, ite_false] at hd
    have hd2 : (['0'] : List Char) = decimalChars b := hd
    have hv := valOfChars_decimalChars b
    rw [← hd2] at hv
    simp [valOfChars, charVal] at hv
    omega
  · exfalso
    simp only [jsNatToString, ha, hb, ite_true, ite_false] at hd
    have hd2 : decimalChars a = (['0'] : List Char) := hd
    have hv := valOfChars_decimalChars a
    rw [hd2] at hv
    simp [valOfChars, charVal] at hv
    omega
  · simp only [jsNatToString, ha, hb, ite_true, ite_false] at hd
    exact decimalChars_inj a b hd

/-!
Data model of the runner.
-/

/-- Per-file coverage record produced by istanbul's instrumenter: statement
counters `s`, function counters `f`, branch counter arrays `b`, each keyed by
a numeric-string id. Counters mutate at runtime; the key sets are the static
metadata fixed at instrumentation time. -/
structure FileCoverage where
  s : List (String × Nat)
  f : List (String × Nat)
  b : List (String × List Nat)
deriving DecidableEq

/-- The process-wide counter table `global[this.coverageVar]`: a JS object
mapping file path to its FileCoverage, modelled as an insertion-ordered
association list (JS object keys are unique). -/
abbrev CovTable := List (FsPath × FileCoverage)

/-- JS object property lookup on the counter table (`cov[file]`). -/
def covLookup : CovTable → FsPath → Option FileCoverage
  | [], _ => none
  | kv :: rest, p => if kv.fst = p then some kv.snd else covLookup rest p

/-- Key set of the counter table (`Object.keys(cov)`). -/
def covKeys (cov : CovTable) : List FsPath := cov.map Prod.fst

/-- Reset of every statement counter performed by `reportCoverage` on a
synthetically instrumented file: `Object.keys(fileCoverage.s).forEach(key =>
fileCoverage.s[key] = 0)`. Function and branch counters are left untouched. -/
def zeroS (fc : FileCoverage) : FileCoverage :=
  FileCoverage.mk (fc.s.map (fun kv => (kv.fst, 0))) fc.f fc.b

/-- Gap-filling loop of `reportCoverage`: for each path of `matchFn.files`
absent from the counter table, instrument the file's raw text, zero its
statement counters, and insert the record (`cov[file] = ...`, an append for a
fresh key of a JS object). `instrument p` stands for
`this.transformer(fs.readFileSync(p), \x7bfilename: p\x7d)` followed by reading
`this.instrumenter.fileCoverage`, the per-file record istanbul registered. -/
def gapFill (instrument : FsPath → FileCoverage) : CovTable → List FsPath → CovTable
  | cov, [] => cov
  | cov, file :: rest =>
      if (covLookup cov file).isSome then gapFill instrument cov rest
      else gapFill instrument (cov ++ [(file, zeroS (instrument file))]) rest

/-!
Coverage-variable key, built in the `CoverageRunner` constructor as
`this.coverageVar = '$$cov_' + new Date().getTime() + '$$'`.
-/

/-- Counter-table key derived from the constructor-time clock reading. -/
def coverageVarName (timeMs : Nat) : String := "$$cov_" ++ jsNatToString timeMs ++ "$$"

/-- One constructed `CoverageRunner` object: its identity (`runId` models JS
object identity) and the millisecond clock value read in its constructor. -/
structure RunnerInstance where
  runId : Nat
  createdAtMs : Nat
deriving DecidableEq

/-- The `coverageVar` field of a constructed runner. -/
def runnerCoverageVar (r : RunnerInstance) : String := coverageVarName r.createdAtMs

/-!
The require-hook transformer installed by `setupCoverage`.
-/

/-- Attempted read-and-parse of the companion source map inside the
transformer's try block: `JSON.parse(fs.readFileSync(filename + '.map'))`.
A failing read (missing or unreadable file) or a failing parse throws, is
caught, and leaves the map `undefined`. -/
def tryReadMap {M : Type} (fsRead : FsPath → Option String) (parse : String → Option M)
    (filename : FsPath) : Option M :=
  match fsRead (filename ++ ".map") with
  | none => none
  | some txt =>
      match parse txt with
      | none => none
      | some m => some m

/-- The transformer closure: look for a `.map` companion, then return
`this.instrumenter.instrumentSync(code, options.filename, map)`. -/
def transformer {M : Type} (instrumentSync : String → FsPath → Option M → String)
    (fsRead : FsPath → Option String) (parse : String → Option M)
    (code : String) (filename : FsPath) : String :=
  instrumentSync code filename (tryReadMap fsRead parse filename)

/-!
Configuration and the report emitter.
-/

/-- Coverage configuration parsed from the JSON config file. `reports = none`
models any non-Array value of the `reports` field (including absence);
`relativeSourcePath = none` models an absent required path option. -/
structure CoverOptions where
  enabled : Bool
  relativeSourcePath : Option String
  ignorePatterns : List String
  relativeCoverageDir : String
  includePid : Bool
  reports : Option (List String)
deriving DecidableEq

/-- A synchronous `fs.writeFileSync` call: target path and written bytes. -/
structure WriteOp where
  path : String
  bytes : String
deriving DecidableEq

/-- Observable effects of one `reportCoverage` invocation. `dirEnsured` is the
`mkDirIfExists(reportingDir)` call, `snapshotWrite` the raw-JSON snapshot
write, `renderedReports` the list of report types handed to
`iReports.create`, `finalCov` the aggregated counter table after
gap-filling. -/
structure ReportOutcome where
  loggedNoCoverage : Bool
  dirEnsured : Option String
  snapshotWrite : Option WriteOp
  renderedReports : List String
  finalCov : Option CovTable
deriving DecidableEq

/-- JSON string literal for a key free of escapes (istanbul counter ids and
the paths used here contain none). -/
def jsonQuote (s : String) : String := "\"" ++ s ++ "\""

/-- JSON.stringify of a counter object. -/
def stringifyCounterMap (l : List (String × Nat)) : String :=
  "\x7b" ++ String.intercalate "," (l.map (fun kv => jsonQuote kv.fst ++ ":" ++ jsNatToString kv.snd)) ++ "\x7d"

/-- JSON.stringify of a branch-counter array. -/
def stringifyNatList (l : List Nat) : String :=
  "[" ++ String.intercalate "," (l.map jsNatToString) ++ "]"

/-- JSON.stringify of a branch-counter object. -/
def stringifyBranchMap (l : List (String × List Nat)) : String :=
  "\x7b" ++ String.intercalate "," (l.map (fun kv => jsonQuote kv.fst ++ ":" ++ stringifyNatList kv.snd)) ++ "\x7d"

/-- JSON.stringify of one FileCoverage record. -/
def stringifyFileCoverage (fc : FileCoverage) : String :=
  "\x7b" ++ jsonQuote "s" ++ ":" ++ stringifyCounterMap fc.s ++ "," ++ jsonQuote "f" ++ ":" ++
    stringifyCounterMap fc.f ++ "," ++ jsonQuote "b" ++ ":" ++ stringifyBranchMap fc.b ++ "\x7d"

/-- JSON.stringify of the whole counter table (`JSON.stringify(cov)`). -/
def stringifyCov (cov : CovTable) : String :=
  "\x7b" ++ String.intercalate "," (cov.map (fun kv => jsonQuote kv.fst ++ ":" ++ stringifyFileCoverage kv.snd)) ++ "\x7d"

/-- The reporting directory `path.join(this.testsRoot, this.options.relativeCoverageDir)`. -/
def reportingDirOf (opts : CoverOptions) (testsRoot : String) : String :=
  pathJoin testsRoot opts.relativeCoverageDir

/-- The snapshot path `path.resolve(reportingDir, 'coverage' + pidExt + '.json')`. -/
def coverageFileOf (opts : CoverOptions) (testsRoot : String) (pid : Nat) : String :=
  pathJoin (reportingDirOf opts testsRoot)
    ("coverage" ++ (if opts.includePid then "-" ++ jsNatToString pid else "") ++ ".json")

/-- Embedding of `CoverageRunner.reportCoverage`. `covTable = none` models an
undefined `global[this.coverageVar]`; `files` is `this.matchFn.files`;
`instrument` is the synthetic-instrumentation closure described at `gapFill`.
The unconditional `this.unhookRequire()` at entry and the source-map
translation feeding the renderers (both external library calls) leave no
trace in the outcome beyond `renderedReports`. -/
def reportCoverage (opts : CoverOptions) (testsRoot : String) (pid : Nat)
    (instrument : FsPath → FileCoverage) (files : List FsPath)
    (covTable : Option CovTable) : ReportOutcome :=
  match covTable with
  | none => ReportOutcome.mk true none none [] none
  | some cov =>
      if cov.isEmpty then ReportOutcome.mk true none none [] none
      else
        let finalCov := gapFill instrument cov files
        let reportTypes := opts.reports.getD ["lcovonly"]
        ReportOutcome.mk false (some (reportingDirOf opts testsRoot))
          (some (WriteOp.mk (coverageFileOf opts testsRoot pid) (stringifyCov finalCov)))
          reportTypes (some finalCov)

/-!
Run orchestrator: `configure`, `readCoverOptions`, `run`, and the
process-exit report hook.
-/

/-- The secondary options bag stored by `configure` into the module-level
`testOptions`; it only holds the coverage-config filename used later. -/
structure TestOpts where
  coverConfig : String
deriving DecidableEq

/-- Embedding of `configure(mochaOpts, testOpts)`: its effect on the
module-level `testOptions` binding (which starts out `undefined`). -/
def configure (testOpts : TestOpts) : Option TestOpts := some testOpts

/-- Message of the TypeError thrown by `testOptions.coverConfig` when the
module-level `testOptions` is still `undefined`. -/
def tyErrUndefinedMsg : String :=
  "TypeError: Cannot read property of undefined (reading coverConfig)"

/-- Embedding of `readCoverOptions(testsRoot)`: dereferencing the module
state throws if `configure` was never called; otherwise the config file is
read and parsed when it exists and the function yields `undefined` when it
does not. `parseConfig` stands for `JSON.parse(fs.readFileSync(path))`. -/
def readCoverOptions (testOptions : Option TestOpts) (fsExists : String → Bool)
    (parseConfig : String → CoverOptions) (testsRoot : String) :
    Except String (Option CoverOptions) :=
  match testOptions with
  | none => Except.error tyErrUndefinedMsg
  | some topts =>
      let coverConfigPath := pathJoin testsRoot topts.coverConfig
      if fsExists coverConfigPath then Except.ok (some (parseConfig coverConfigPath))
      else Except.ok none

/-- Case normalization applied to each globbed path in `setupCoverage`
(`fullPath.toLocaleLowerCase()` on win32 only, a per-character lowercase for
the ASCII paths involved). -/
def normalizePath (isWin32 : Bool) (p : String) : String :=
  if isWin32 then String.mk (p.data.map Char.toLower) else p

/-- Insertion of one key into a JS object's key list (`fileMap[fullPath] =
true`): a repeated key leaves the key list unchanged. -/
def insertObjectKey (ks : List String) (k : String) : List String :=
  if k ∈ ks then ks else ks ++ [k]

/-- The SourceFileSet `matchFn.files = Object.keys(fileMap)` built by
`setupCoverage` from the glob results under the source root. -/
def buildFileMap (sourceRoot : String) (srcFiles : List String) (isWin32 : Bool) :
    List FsPath :=
  (srcFiles.map (fun f => normalizePath isWin32 (pathJoin sourceRoot f))).foldl
    insertObjectKey []

/-- The coverage stage armed by `setupCoverage`: the options and SourceFileSet
the process-exit listener will report with. -/
structure ArmedCoverage where
  opts : CoverOptions
  files : List FsPath
deriving DecidableEq

/-- Observable outcome of one `run(testsRoot, clb)` call. `threw` is an
exception escaping `run` itself; `callbackCalls` lists `clb` invocations as
(error, failureCount) pairs; `hookInstalled` is the `hookRequire` call;
`coverageVarInitialized` is the `global[this.coverageVar] = \x7b\x7d` write;
`armedCoverage` is the registered process-exit report stage; `testsStarted`
records whether `mocha.run` was reached. -/
structure RunOutcome where
  threw : Option String
  callbackCalls : List (Option String × Option Nat)
  hookInstalled : Bool
  coverageVarInitialized : Bool
  armedCoverage : Option ArmedCoverage
  testsStarted : Bool
deriving DecidableEq

/-- Error string passed to the completion callback by the `CoverageRunner`
constructor when the required option is missing. -/
def relativeSourcePathErrorMsg : String :=
  "Error - relativeSourcePath must be defined for code coverage to work"

/-- Message of the TypeError thrown by
`path.join(this.testsRoot, this.options.relativeSourcePath)` in
`setupCoverage` when `relativeSourcePath` is `undefined`. -/
def pathJoinErrMsg : String :=
  "TypeError: The path argument must be of type string. Received undefined"

/-- Tail of `run`: glob the test files and hand them to mocha. On a glob
error the callback receives the error; on success every discovered file is
added and `mocha.run` invokes the callback with the failure count. The
coverage flags are those established before this point. -/
def runTests (armed : Option ArmedCoverage) (hooked : Bool) (covInit : Bool)
    (testGlobResult : Except String (List String)) (failureCount : Nat) : RunOutcome :=
  match testGlobResult with
  | Except.error e => RunOutcome.mk none [(some e, none)] hooked covInit armed false
  | Except.ok _ => RunOutcome.mk none [(none, some failureCount)] hooked covInit armed true

/-- Embedding of `run(testsRoot, clb)`. External inputs: the filesystem
(`fsExists`, `parseConfig`), the source-file glob results consumed by
`setupCoverage` (`srcGlobResult`), the platform flag, the test-file glob
outcome and the failure count mocha reports. When the config enables
coverage but `relativeSourcePath` is absent, the constructor reports the
error through the callback and returns, yet `run` still calls
`setupCoverage`, whose `path.join` on the undefined option throws before any
hook or listener is installed and before the test glob is reached. -/
def run (testOptions : Option TestOpts) (fsExists : String → Bool)
    (parseConfig : String → CoverOptions) (testsRoot : String)
    (srcGlobResult : List String) (isWin32 : Bool)
    (testGlobResult : Except String (List String)) (failureCount : Nat) : RunOutcome :=
  match readCoverOptions testOptions fsExists parseConfig testsRoot with
  | Except.error e => RunOutcome.mk (some e) [] false false none false
  | Except.ok coverOptions =>
      match coverOptions with
      | some opts =>
          if opts.enabled then
            match opts.relativeSourcePath with
            | none =>
                RunOutcome.mk (some pathJoinErrMsg)
                  [(some relativeSourcePathErrorMsg, none)] false false none false
            | some rel =>
                let sourceRoot := pathJoin testsRoot rel
                let files := buildFileMap sourceRoot srcGlobResult isWin32
                runTests (some (ArmedCoverage.mk opts files)) true true
                  testGlobResult failureCount
          else runTests none false false testGlobResult failureCount
      | none => runTests none false false testGlobResult failureCount

/-- The process-exit listener: when a coverage stage was armed it runs
`reportCoverage` against the final counter table, otherwise nothing runs. -/
def atProcessExit (armed : Option ArmedCoverage) (testsRoot : String) (pid : Nat)
    (instrument : FsPath → FileCoverage) (covTable : Option CovTable) :
    Option ReportOutcome :=
  match armed with
  | none => none
  | some a => some (reportCoverage a.opts testsRoot pid instrument a.files covTable)

/-- Directories the exit-time report step attempts to create. -/
def processDirsEnsured (ro : Option ReportOutcome) : List String :=
  match ro with
  | none => []
  | some o =>
      match o.dirEnsured with
      | none => []
      | some d => [d]

/-!
Lemmas about the counter table and the gap-filling aggregation.
-/

theorem covLookup_append (c1 c2 : CovTable) (p : FsPath) :
    covLookup (c1 ++ c2) p =
      (match covLookup c1 p with
       | some v => some v
       | none => covLookup c2 p) := by
  induction c1 with
  | nil => simp [covLookup]
  | cons kv rest ih =>
      by_cases h : kv.fst = p <;> simp [covLookup, h, ih]

theorem covLookup_isSome_iff (cov : CovTable) (p : FsPath) :
    (covLookup cov p).isSome ↔ p ∈ covKeys cov := by
  induction cov with
  | nil => simp [covLookup, covKeys]
  | cons kv rest ih =>
      have hk : covKeys (kv :: rest) = kv.fst :: covKeys rest := rfl
      rw [hk, List.mem_cons]
      by_cases h : kv.fst = p
      · simp [covLookup, h]
      · have h2 : ¬(p = kv.fst) := fun e => h e.symm
        simp [covLookup, h, h2, ih]

theorem covLookup_eq_none_iff (cov : CovTable) (p : FsPath) :
    covLookup cov p = none ↔ p ∉ covKeys cov := by
  rw [← covLookup_isSome_iff, Option.not_isSome_iff_eq_none]

theorem covLookup_gapFill_of_some (instrument : FsPath → FileCoverage)
    (cov : CovTable) (files : List FsPath) (p : FsPath) (v : FileCoverage)
    (h : covLookup cov p = some v) :
    covLookup (gapFill instrument cov files) p = some v := by
  induction files generalizing cov with
  | nil => simpa [gapFill] using h
  | cons f rest ih =>
      simp only [gapFill]
      split
      · exact ih _ h
      · apply ih
        rw [covLookup_append, h]

theorem covLookup_gapFill_of_mem (instrument : FsPath → FileCoverage)
    (cov : CovTable) (files : List FsPath) (p : FsPath) (h : p ∈ files) :
    (covLookup (gapFill instrument cov files) p).isSome := by
  induction files generalizing cov with
  | nil => cases h
  | cons f rest ih =>
      simp only [gapFill]
      rcases List.mem_cons.mp h with rfl | hrest
      · split
        · rename_i hsome
          obtain ⟨v, hv⟩ := Option.isSome_iff_exists.mp hsome
          rcases rest.eq_nil_or_concat with rfl | _
          · simpa [gapFill] using hsome
          · rw [covLookup_gapFill_of_some instrument cov rest p v hv]
            rfl
        · rename_i hnone
          have hz : covLookup (cov ++ [(p, zeroS (instrument p))]) p
              = some (zeroS (instrument p)) := by
            rw [covLookup_append, Option.not_isSome_iff_eq_none.mp hnone]
            simp [covLookup]
          rw [covLookup_gapFill_of_some instrument _ rest p _ hz]
          rfl
      · split
        · exact ih _ hrest
        · exact ih _ hrest

theorem mem_covKeys_gapFill (instrument : FsPath → FileCoverage)
    (cov : CovTable) (files : List FsPath) (p : FsPath)
    (h : p ∈ covKeys (gapFill instrument cov files)) :
    p ∈ covKeys cov ∨ p ∈ files := by
  induction files generalizing cov with
  | nil => exact Or.inl (by simpa [gapFill] using h)
  | cons f rest ih =>
      simp only [gapFill] at h
      split at h
      · rcases ih _ h with h1 | h1
        · exact Or.inl h1
        · exact Or.inr (List.mem_cons_of_mem _ h1)
      · rcases ih _ h with h1 | h1
        · simp only [covKeys, List.map_append, List.map_cons, List.map_nil,
            List.mem_append, List.mem_singleton] at h1
          rcases h1 with h2 | h2
          · exact Or.inl h2
          · exact Or.inr (h2 ▸ List.mem_cons_self f rest)
        · exact Or.inr (List.mem_cons_of_mem _ h1)

theorem covKeys_gapFill_nodup (instrument : FsPath → FileCoverage)
    (cov : CovTable) (files : List FsPath) (h : (covKeys cov).Nodup) :
    (covKeys (gapFill instrument cov files)).Nodup := by
  induction files generalizing cov with
  | nil => simpa [gapFill] using h
  | cons f rest ih =>
      simp only [gapFill]
      split
      · exact ih _ h
      · apply ih
        rename_i hnone
        have hf : f ∉ covKeys cov :=
          (covLookup_eq_none_iff cov f).mp (Option.not_isSome_iff_eq_none.mp hnone)
        simp only [covKeys, List.map_append, List.map_cons, List.map_nil]
        rw [List.nodup_append]
        refine ⟨h, List.nodup_singleton f, ?_⟩
        intro a ha haf
        rw [List.mem_singleton] at haf
        exact hf (haf ▸ ha)

theorem gapFill_eq_self (instrument : FsPath → FileCoverage)
    (cov : CovTable) (files : List FsPath)
    (h : ∀ f ∈ files, (covLookup cov f).isSome) :
    gapFill instrument cov files = cov := by
  induction files with
  | nil => rfl
  | cons f rest ih =>
      simp only [gapFill, h f (List.mem_cons_self f rest), if_true]
      exact ih (fun g hg => h g (List.mem_cons_of_mem _ hg))

theorem gapFill_idem (instrument : FsPath → FileCoverage)
    (cov : CovTable) (files : List FsPath) :
    gapFill instrument (gapFill instrument cov files) files
      = gapFill instrument cov files :=
  gapFill_eq_self _ _ _ (fun f hf => covLookup_gapFill_of_mem instrument cov files f hf)

theorem gapFill_ne_nil (instrument : FsPath → FileCoverage)
    (cov : CovTable) (files : List FsPath) (h : cov ≠ []) :
    gapFill instrument cov files ≠ [] := by
  induction files generalizing cov with
  | nil => simpa [gapFill] using h
  | cons f rest ih =>
      simp only [gapFill]
      split
      · exact ih _ h
      · exact ih _ (by simp)

theorem covLookup_gapFill_zero (instrument : FsPath → FileCoverage)
    (cov : CovTable) (files : List FsPath) (p : FsPath)
    (hp : p ∈ files) (habs : covLookup cov p = none) :
    covLookup (gapFill instrument cov files) p = some (zeroS (instrument p)) := by
  induction files generalizing cov with
  | nil => cases hp
  | cons f rest ih =>
      simp only [gapFill]
      rcases List.mem_cons.mp hp with rfl | hrest
      · split
        · rename_i hsome
          rw [habs] at hsome
          cases hsome
        · have hz : covLookup (cov ++ [(p, zeroS (instrument p))]) p
              = some (zeroS (instrument p)) := by
            rw [covLookup_append, habs]
            simp [covLookup]
          exact covLookup_gapFill_of_some instrument _ rest p _ hz
      · split
        · exact ih _ hrest habs
        · by_cases hpf : p = f
          · subst hpf
            have hz : covLookup (cov ++ [(p, zeroS (instrument p))]) p
                = some (zeroS (instrument p)) := by
              rw [covLookup_append, habs]
              simp [covLookup]
            exact covLookup_gapFill_of_some instrument _ rest p _ hz
          · refine ih _ hrest ?_
            rw [covLookup_append, habs]
            have hfp : f ≠ p := fun h => hpf h.symm
            simp [covLookup, hfp]

theorem zeroS_counters (fc : FileCoverage) : ∀ kv ∈ (zeroS fc).s, kv.snd = 0 := by
  intro kv hkv
  simp only [zeroS, List.mem_map] at hkv
  obtain ⟨a, _, rfl⟩ := hkv
  rfl

theorem reportCoverage_pos (opts : CoverOptions) (testsRoot : String) (pid : Nat)
    (instrument : FsPath → FileCoverage) (files : List FsPath) (cov : CovTable)
    (hne : cov ≠ []) :
    reportCoverage opts testsRoot pid instrument files (some cov) =
      ReportOutcome.mk false (some (reportingDirOf opts testsRoot))
        (some (WriteOp.mk (coverageFileOf opts testsRoot pid)
          (stringifyCov (gapFill instrument cov files))))
        (opts.reports.getD ["lcovonly"]) (some (gapFill instrument cov files)) := by
  cases cov with
  | nil => exact absurd rfl hne
  | cons kv rest => rfl

/-!
Concrete fixtures used by the witnesses: a run over two source files of which
only `a.js` was loaded.
-/

/-- Counter state of a file the tests loaded and executed. -/
def fcLoaded : FileCoverage :=
  FileCoverage.mk [("0", 3), ("1", 0)] [("0", 2)] [("0", [1, 0])]

/-- Static record istanbul produces when instrumenting a file in discovery
mode, with function-declaration statement counters pre-seeded to 1. -/
def fcStatic : FileCoverage :=
  FileCoverage.mk [("0", 1), ("1", 1)] [("0", 1)] [("0", [0, 0])]

/-- A fixed instrumenter result for the synthetic pass. -/
def instEx : FsPath → FileCoverage := fun _ => fcStatic

/-- Counter table after a run that loaded only `a.js`. -/
def covEx : CovTable := [("root/src/a.js", fcLoaded)]

/-- SourceFileSet of the fixture run. -/
def filesEx : List FsPath := ["root/src/a.js", "root/src/b.js"]

/-- A plain enabled configuration. -/
def optsEx : CoverOptions := CoverOptions.mk true (some "src") [] "coverage" false none

/-- Same configuration with an empty (but Array-valued) reports list. -/
def optsEmptyReports : CoverOptions :=
  CoverOptions.mk true (some "src") [] "coverage" false (some [])

/-- Enabled configuration missing the required relativeSourcePath. -/
def optsNoSrcPath : CoverOptions := CoverOptions.mk true none [] "coverage" false none

/-- A configured secondary options bag. -/
def toptsEx : TestOpts := TestOpts.mk "coverconfig.json"

/-!
Fixtures for the win32 casing mismatch: `setupCoverage` lowercases the
SourceFileSet keys and `matchFn` lowercases its lookup argument, but the
transformer hands istanbul the un-normalized `options.filename` from the
require hook, so at runtime the counter table is keyed by the original
casing. The source's own comments anticipate that the glob and require-hook
casings differ on Windows.
-/

/-- Counter table of a win32 run that loaded `A.js` through a mixed-case
require path: the live entry sits under the un-normalized filename. -/
def covWin : CovTable := [("C:/src/A.js", fcLoaded)]

/-- The SourceFileSet `matchFn.files` of that run, lowercased at setup. -/
def filesWin : List FsPath := ["c:/src/a.js"]

/-- The aggregated table the gap-fill produces for that run. -/
def covWinFinal : CovTable := [("C:/src/A.js", fcLoaded), ("c:/src/a.js", zeroS fcStatic)]

/-!
Claims.
-/

/-- C1 counterexample: a win32 run whose counter table is keyed by the
mixed-case require path. The lowercased SourceFileSet is exactly what
`setupCoverage` builds from globbing `A.js`, the captured key is that same
file under win32 normalization, yet the aggregated map keeps the mixed-case
entry — a path outside the SourceFileSet — and adds a second, synthetic-zero
entry for the normalized path, so the map has an out-of-set entry and its
entry count exceeds the SourceFileSet's cardinality, refuting the claimed
invariant. -/
theorem coverage_entry_outside_sourceFileSet :
    buildFileMap "C:/src" ["A.js"] true = filesWin ∧
    normalizePath true "C:/src/A.js" ∈ filesWin ∧
    covWin ≠ [] ∧
    (reportCoverage optsEx "root" 0 instEx filesWin (some covWin)).finalCov
      = some covWinFinal ∧
    "C:/src/A.js" ∈ covKeys covWinFinal ∧
    "C:/src/A.js" ∉ filesWin ∧
    (covKeys covWinFinal).length ≠ filesWin.length :=
  ⟨by decide, by decide, by decide, rfl, by decide, by decide, by decide⟩

/-- C1 amended: for a run reaching report emission with a non-empty counter
table whose captured entries all sit under their hooked SourceFileSet paths
(unique JS object keys that belong to `matchFn.files`, as when the require
casings agree with the normalized glob paths — not guaranteed on win32), the
aggregated coverage map has exactly one entry for each SourceFileSet path —
captured or synthetic-zero — and no entry outside the SourceFileSet,
regardless of which subset of files the run loaded. -/
theorem coverageMap_matches_sourceFileSet (opts : CoverOptions) (testsRoot : String)
    (pid : Nat) (instrument : FsPath → FileCoverage) (files : List FsPath)
    (cov : CovTable) (hne : cov ≠ []) (hnd : (covKeys cov).Nodup)
    (hsub : ∀ p ∈ covKeys cov, p ∈ files) :
    ∃ m, (reportCoverage opts testsRoot pid instrument files (some cov)).finalCov = some m ∧
      (covKeys m).Nodup ∧ (∀ p, p ∈ covKeys m ↔ p ∈ files) := by
  refine ⟨gapFill instrument cov files, ?_, ?_, ?_⟩
  · rw [reportCoverage_pos opts testsRoot pid instrument files cov hne]
  · exact covKeys_gapFill_nodup instrument cov files hnd
  · intro p
    constructor
    · intro hm
      rcases mem_covKeys_gapFill instrument cov files p hm with h | h
      · exact hsub p h
      · exact h
    · intro hp
      rw [← covLookup_isSome_iff]
      exact covLookup_gapFill_of_mem instrument cov files p hp

theorem coverageMap_matches_sourceFileSet_witness :
    covEx ≠ [] ∧ (covKeys covEx).Nodup ∧ (∀ p ∈ covKeys covEx, p ∈ filesEx) ∧
    (∃ m, (reportCoverage optsEx "root" 0 instEx filesEx (some covEx)).finalCov = some m ∧
      (covKeys m).Nodup ∧ (∀ p, p ∈ covKeys m ↔ p ∈ filesEx)) :=
  ⟨by decide, by decide, by decide,
    coverageMap_matches_sourceFileSet optsEx "root" 0 instEx filesEx covEx
      (by decide) (by decide) (by decide)⟩

/-- C2: every SourceFileSet path absent from the counter table at report time
is synthetically instrumented, has all its statement counters forced to zero,
and is inserted, so the final coverage map holds a zero-statement-counter
entry for it. -/
theorem neverLoaded_gets_zero_entry (opts : CoverOptions) (testsRoot : String)
    (pid : Nat) (instrument : FsPath → FileCoverage) (files : List FsPath)
    (cov : CovTable) (p : FsPath)
    (hne : cov ≠ []) (hp : p ∈ files) (habs : covLookup cov p = none) :
    ∃ m, (reportCoverage opts testsRoot pid instrument files (some cov)).finalCov = some m ∧
      covLookup m p = some (zeroS (instrument p)) ∧
      ∀ kv ∈ (zeroS (instrument p)).s, kv.snd = 0 := by
  refine ⟨gapFill instrument cov files, ?_, ?_, zeroS_counters _⟩
  · rw [reportCoverage_pos opts testsRoot pid instrument files cov hne]
  · exact covLookup_gapFill_zero instrument cov files p hp habs

theorem neverLoaded_gets_zero_entry_witness :
    covEx ≠ [] ∧ "root/src/b.js" ∈ filesEx ∧ covLookup covEx "root/src/b.js" = none ∧
    (∃ m, (reportCoverage optsEx "root" 0 instEx filesEx (some covEx)).finalCov = some m ∧
      covLookup m "root/src/b.js" = some (zeroS (instEx "root/src/b.js")) ∧
      ∀ kv ∈ (zeroS (instEx "root/src/b.js")).s, kv.snd = 0) :=
  ⟨by decide, by decide, by decide,
    neverLoaded_gets_zero_entry optsEx "root" 0 instEx filesEx covEx "root/src/b.js"
      (by decide) (by decide) (by decide)⟩

/-- C3: with enabled=true but no relativeSourcePath, the completion callback
synchronously receives the descriptive constructor error, no hook or exit
stage is armed, and the test glob and mocha run are never reached (the
subsequent setupCoverage call throws in path.join), so zero tests execute. -/
theorem missing_relativeSourcePath_fails_setup (topts : TestOpts)
    (fsExists : String → Bool) (parseConfig : String → CoverOptions)
    (testsRoot : String) (srcGlobResult : List String) (isWin32 : Bool)
    (testGlobResult : Except String (List String)) (failureCount : Nat)
    (hcfg : fsExists (pathJoin testsRoot topts.coverConfig) = true)
    (hen : (parseConfig (pathJoin testsRoot topts.coverConfig)).enabled = true)
    (hrel : (parseConfig (pathJoin testsRoot topts.coverConfig)).relativeSourcePath = none) :
    run (some topts) fsExists parseConfig testsRoot srcGlobResult isWin32
        testGlobResult failureCount =
      RunOutcome.mk (some pathJoinErrMsg) [(some relativeSourcePathErrorMsg, none)]
        false false none false := by
  simp [run, readCoverOptions, hcfg, hen, hrel]

theorem missing_relativeSourcePath_fails_setup_witness :
    ((fun _ : String => true) (pathJoin "root" toptsEx.coverConfig) = true) ∧
    ((fun _ : String => optsNoSrcPath) (pathJoin "root" toptsEx.coverConfig)).enabled = true ∧
    ((fun _ : String => optsNoSrcPath)
      (pathJoin "root" toptsEx.coverConfig)).relativeSourcePath = none ∧
    run (some toptsEx) (fun _ => true) (fun _ => optsNoSrcPath) "root" [] false
        (Except.ok []) 0 =
      RunOutcome.mk (some pathJoinErrMsg) [(some relativeSourcePathErrorMsg, none)]
        false false none false :=
  ⟨rfl, rfl, rfl,
    missing_relativeSourcePath_fails_setup toptsEx (fun _ => true)
      (fun _ => optsNoSrcPath) "root" [] false (Except.ok []) 0 rfl rfl rfl⟩

/-- C4: an absent or empty counter table at report time is non-fatal: the
no-coverage condition is logged and reportCoverage returns having created no
directory, written no snapshot and rendered no report. -/
theorem no_coverage_collected_nonfatal (opts : CoverOptions) (testsRoot : String)
    (pid : Nat) (instrument : FsPath → FileCoverage) (files : List FsPath)
    (covTable : Option CovTable)
    (h : covTable = none ∨ covTable = some []) :
    reportCoverage opts testsRoot pid instrument files covTable =
      ReportOutcome.mk true none none [] none := by
  rcases h with rfl | rfl <;> rfl

theorem no_coverage_collected_nonfatal_witness :
    ((none : Option CovTable) = none ∨ (none : Option CovTable) = some []) ∧
    reportCoverage optsEx "root" 0 instEx filesEx none =
      ReportOutcome.mk true none none [] none :=
  ⟨Or.inl rfl,
    no_coverage_collected_nonfatal optsEx "root" 0 instEx filesEx none (Or.inl rfl)⟩

/-- C5 counterexample: an empty reports list is still an Array, so the source
renders zero reports for it, refuting the claim that an empty list falls back
to exactly one default line-coverage-only report. -/
theorem empty_reports_list_renders_nothing :
    (reportCoverage optsEmptyReports "root" 0 instEx filesEx
      (some covEx)).renderedReports = [] ∧
    (["lcovonly"] : List String) ≠ [] :=
  ⟨rfl, by decide⟩

/-- C5 amended: the single default lcovonly report is rendered exactly when
the configured reports value is not an Array; an Array value is used as-is,
one rendered report per identifier — so an empty list renders no report. -/
theorem renderedReports_default_only_when_not_list (opts : CoverOptions)
    (testsRoot : String) (pid : Nat) (instrument : FsPath → FileCoverage)
    (files : List FsPath) (cov : CovTable) (hne : cov ≠ []) :
    (reportCoverage opts testsRoot pid instrument files (some cov)).renderedReports =
      opts.reports.getD ["lcovonly"] := by
  rw [reportCoverage_pos opts testsRoot pid instrument files cov hne]

theorem renderedReports_default_only_when_not_list_witness :
    covEx ≠ [] ∧
    (reportCoverage optsEx "root" 0 instEx filesEx (some covEx)).renderedReports =
      optsEx.reports.getD ["lcovonly"] :=
  ⟨by decide,
    renderedReports_default_only_when_not_list optsEx "root" 0 instEx filesEx covEx
      (by decide)⟩

/-- C6 counterexample: two distinct runner instances constructed during the
same millisecond receive the same counter-table key, refuting per-run key
uniqueness. -/
theorem same_millisecond_key_collision :
    RunnerInstance.mk 0 1700000000000 ≠ RunnerInstance.mk 1 1700000000000 ∧
    runnerCoverageVar (RunnerInstance.mk 0 1700000000000) =
      runnerCoverageVar (RunnerInstance.mk 1 1700000000000) :=
  ⟨by decide, rfl⟩

theorem coverageVarName_inj (t1 t2 : Nat)
    (h : coverageVarName t1 = coverageVarName t2) : t1 = t2 := by
  apply jsNatToString_inj
  apply String.ext
  have hd := congrArg String.data h
  simp only [coverageVarName, String.data_append, List.append_assoc] at hd
  have h1 := List.append_cancel_left hd
  exact List.append_cancel_right h1

/-- C6 amended: the counter-table key is a pure function of the constructor's
millisecond timestamp, so two runs obtain distinct keys whenever their
construction timestamps differ; runs constructed within one millisecond share
a key. -/
theorem distinct_timestamps_distinct_keys (r1 r2 : RunnerInstance)
    (h : r1.createdAtMs ≠ r2.createdAtMs) :
    runnerCoverageVar r1 ≠ runnerCoverageVar r2 :=
  fun he => h (coverageVarName_inj r1.createdAtMs r2.createdAtMs he)

theorem distinct_timestamps_distinct_keys_witness :
    (RunnerInstance.mk 0 1700000000000).createdAtMs ≠
      (RunnerInstance.mk 0 1700000000001).createdAtMs ∧
    runnerCoverageVar (RunnerInstance.mk 0 1700000000000) ≠
      runnerCoverageVar (RunnerInstance.mk 0 1700000000001) :=
  ⟨by decide,
    distinct_timestamps_distinct_keys (RunnerInstance.mk 0 1700000000000)
      (RunnerInstance.mk 0 1700000000001) (by decide)⟩

/-- C7: emitting reports twice from the same aggregated coverage map (fixed
process id; includePid irrelevant once the pid is fixed) is idempotent for
the raw JSON snapshot: the second emission writes the same bytes to the same
coverage JSON path as the first. -/
theorem snapshot_emission_idempotent (opts : CoverOptions) (testsRoot : String)
    (pid : Nat) (instrument : FsPath → FileCoverage) (files : List FsPath)
    (cov : CovTable) (hne : cov ≠ []) :
    ∃ m w,
      (reportCoverage opts testsRoot pid instrument files (some cov)).finalCov = some m ∧
      (reportCoverage opts testsRoot pid instrument files (some cov)).snapshotWrite
        = some w ∧
      (reportCoverage opts testsRoot pid instrument files (some m)).snapshotWrite
        = some w := by
  refine ⟨gapFill instrument cov files,
    WriteOp.mk (coverageFileOf opts testsRoot pid)
      (stringifyCov (gapFill instrument cov files)), ?_, ?_, ?_⟩
  · rw [reportCoverage_pos opts testsRoot pid instrument files cov hne]
  · rw [reportCoverage_pos opts testsRoot pid instrument files cov hne]
  · rw [reportCoverage_pos opts testsRoot pid instrument files _
      (gapFill_ne_nil instrument cov files hne)]
    rw [gapFill_idem]

theorem snapshot_emission_idempotent_witness :
    covEx ≠ [] ∧
    (∃ m w,
      (reportCoverage optsEx "root" 0 instEx filesEx (some covEx)).finalCov = some m ∧
      (reportCoverage optsEx "root" 0 instEx filesEx (some covEx)).snapshotWrite
        = some w ∧
      (reportCoverage optsEx "root" 0 instEx filesEx (some m)).snapshotWrite = some w) :=
  ⟨by decide,
    snapshot_emission_idempotent optsEx "root" 0 instEx filesEx covEx (by decide)⟩

/-- C8: when the coverage config file is absent or present with enabled=false,
run arms no coverage stage: the require hook is never installed, the coverage
variable is never initialized, no exit-report stage is registered (so the
exit step creates no coverage directory), and the run consists only of test
discovery and execution reporting to the callback. -/
theorem disabled_coverage_no_side_effects (topts : TestOpts)
    (fsExists : String → Bool) (parseConfig : String → CoverOptions)
    (testsRoot : String) (srcGlobResult : List String) (isWin32 : Bool)
    (testGlobResult : Except String (List String)) (failureCount : Nat)
    (pid : Nat) (instrument : FsPath → FileCoverage) (covTable : Option CovTable)
    (hdis : fsExists (pathJoin testsRoot topts.coverConfig) = false ∨
      (parseConfig (pathJoin testsRoot topts.coverConfig)).enabled = false) :
    (run (some topts) fsExists parseConfig testsRoot srcGlobResult isWin32
        testGlobResult failureCount).hookInstalled = false ∧
    (run (some topts) fsExists parseConfig testsRoot srcGlobResult isWin32
        testGlobResult failureCount).coverageVarInitialized = false ∧
    (run (some topts) fsExists parseConfig testsRoot srcGlobResult isWin32
        testGlobResult failureCount).armedCoverage = none ∧
    processDirsEnsured (atProcessExit
      (run (some topts) fsExists parseConfig testsRoot srcGlobResult isWin32
        testGlobResult failureCount).armedCoverage testsRoot pid instrument covTable)
      = [] ∧
    (∀ fls, testGlobResult = Except.ok fls →
      (run (some topts) fsExists parseConfig testsRoot srcGlobResult isWin32
          testGlobResult failureCount).testsStarted = true ∧
      (run (some topts) fsExists parseConfig testsRoot srcGlobResult isWin32
          testGlobResult failureCount).callbackCalls = [(none, some failureCount)]) := by
  have hrun : run (some topts) fsExists parseConfig testsRoot srcGlobResult isWin32
      testGlobResult failureCount = runTests none false false testGlobResult failureCount := by
    rcases hdis with h | h
    · simp [run, readCoverOptions, h]
    · by_cases hfs : fsExists (pathJoin testsRoot topts.coverConfig) <;>
        simp [run, readCoverOptions, h, hfs]
  rw [hrun]
  cases testGlobResult with
  | error e =>
      refine ⟨rfl, rfl, rfl, rfl, ?_⟩
      intro fls hok
      cases hok
  | ok fls => exact ⟨rfl, rfl, rfl, rfl, fun _ _ => ⟨rfl, rfl⟩⟩

theorem disabled_coverage_no_side_effects_witness :
    ((fun _ : String => false) (pathJoin "root" toptsEx.coverConfig) = false ∨
      ((fun _ : String => optsEx) (pathJoin "root" toptsEx.coverConfig)).enabled = false) ∧
    ((run (some toptsEx) (fun _ => false) (fun _ => optsEx) "root" [] false
        (Except.ok []) 0).hookInstalled = false ∧
      (run (some toptsEx) (fun _ => false) (fun _ => optsEx) "root" [] false
        (Except.ok []) 0).coverageVarInitialized = false ∧
      (run (some toptsEx) (fun _ => false) (fun _ => optsEx) "root" [] false
        (Except.ok []) 0).armedCoverage = none ∧
      processDirsEnsured (atProcessExit
        (run (some toptsEx) (fun _ => false) (fun _ => optsEx) "root" [] false
          (Except.ok []) 0).armedCoverage "root" 0 instEx none) = [] ∧
      (∀ fls, (Except.ok [] : Except String (List String)) = Except.ok fls →
        (run (some toptsEx) (fun _ => false) (fun _ => optsEx) "root" [] false
          (Except.ok []) 0).testsStarted = true ∧
        (run (some toptsEx) (fun _ => false) (fun _ => optsEx) "root" [] false
          (Except.ok []) 0).callbackCalls = [(none, some 0)])) :=
  ⟨Or.inl rfl,
    disabled_coverage_no_side_effects toptsEx (fun _ => false) (fun _ => optsEx)
      "root" [] false (Except.ok []) 0 0 instEx none (Or.inl rfl)⟩

/-- C9: when the companion source-map file of an instrumented source is
missing or unreadable, the transformer still succeeds: the caught read error
leaves the map undefined and the transformer returns the instrumented text
produced with no source map. -/
theorem missing_sourcemap_still_instruments {M : Type}
    (instrumentSync : String → FsPath → Option M → String)
    (fsRead : FsPath → Option String) (parse : String → Option M)
    (code : String) (filename : FsPath)
    (h : fsRead (filename ++ ".map") = none) :
    transformer instrumentSync fsRead parse code filename
      = instrumentSync code filename none := by
  simp [transformer, tryReadMap, h]

theorem missing_sourcemap_still_instruments_witness :
    ((fun _ : FsPath => (none : Option String)) ("a.js" ++ ".map") = none) ∧
    transformer (fun c _ m => (if m.isSome then "mapped " else "plain ") ++ c)
        (fun _ => none) (fun _ => (none : Option Nat)) "code" "a.js"
      = (fun c _ m => (if (m : Option Nat).isSome then "mapped " else "plain ") ++ c)
          "code" "a.js" none :=
  ⟨rfl,
    missing_sourcemap_still_instruments
      (fun c _ m => (if m.isSome then "mapped " else "plain ") ++ c)
      (fun _ => none) (fun _ => (none : Option Nat)) "code" "a.js" rfl⟩

/-- C10: calling run before configure dereferences the undefined module-level
testOptions inside readCoverOptions, so run throws a TypeError before any
test discovery: the callback is never invoked and no tests start; the
situation is not treated as no-coverage-requested. -/
theorem run_without_configure_throws (fsExists : String → Bool)
    (parseConfig : String → CoverOptions) (testsRoot : String)
    (srcGlobResult : List String) (isWin32 : Bool)
    (testGlobResult : Except String (List String)) (failureCount : Nat) :
    run none fsExists parseConfig testsRoot srcGlobResult isWin32
        testGlobResult failureCount =
      RunOutcome.mk (some tyErrUndefinedMsg) [] false false none false := rfl
